import Mathlib

/-!
# OKC Happy Hour — verification of the specification against the code

Shallow embedding of the core logic of the `okc_happy_hour` repository:

* the `Location` record (one row of the `locations` table / spreadsheet),
* the Time Codec (`time_to_minutes` / `minutes_to_time`, identical in
  `src/app.py` and `src/map.py`),
* the Geocoder Adapter (`geocode_address`, identical in `src/app.py` and
  `src/map.py`), with the external geopy response modelled as an oracle,
* the Filter Engine (`get_locations`, identical in `src/db.py` and
  `src/app.py` up to the data source),
* the spreadsheet-backed repository (`src/data_store.py`:
  `insert_location`, `update_description`, `delete_location`),
* the sqlite-backed repository (`src/db.py`: `update_location`,
  `delete_location`, `get_location_by_id`),
* the admin full-edit save flow (`save_edited_location` in `src/admin.py`).

Machine floats (`lat`, `lon`) carry no arithmetic anywhere in the verified
code paths — they are only produced by the geocoder, stored and copied — so
coordinates are modelled as integers.
-/

/-- One venue record, mirroring the `locations` table of `src/db.py`
(`id, name, address, lat, lon, description, days, start_time, end_time`)
and the spreadsheet columns of `src/data_store.py` (same fields, `id` in
column A, `description` in column F). -/
structure Location where
  id : Nat
  name : String
  address : String
  lat : Int
  lon : Int
  description : String
  days : String
  start_time : String
  end_time : String
deriving DecidableEq, Repr

/-! ## Time Codec (`time_to_minutes` / `minutes_to_time`)

`src/app.py` lines 37-46 and `src/map.py` lines 23-32:

    def time_to_minutes(time_str):
        h, m = map(int, time_str.split(':'))
        return h * 60 + m

    def minutes_to_time(minutes):
        h = minutes // 60
        m = minutes % 60
        return f"{h:02d}:{m:02d}"

Python's `str.split(sep)` and `int(...)` are embedded below; a failed
unpacking or `int` conversion raises `ValueError` in Python, embedded as
`none`.  (Python's `int` additionally tolerates underscores between digits
and unicode digits; those exotic spellings are outside the scope of the
claims and are not modelled.) -/

/-- Embedding of Python `str.split(sep)` for a one-character separator:
splits on every occurrence, keeping empty pieces (`"".split(':') == [""]`,
`":".split(':') == ["", ""]`). -/
def splitChar (sep : Char) : List Char → List (List Char)
  | [] => [[]]
  | c :: cs =>
    let r := splitChar sep cs
    if c = sep then [] :: r
    else
      match r with
      | [] => [[c]]
      | g :: gs => (c :: g) :: gs

/-- Value of a list of decimal digit characters, most significant first. -/
def digitsVal (cs : List Char) : Nat :=
  cs.foldl (fun a c => a * 10 + (c.toNat - 48)) 0

/-- Python `str.strip()`: drop leading and trailing whitespace. -/
def pyStrip (cs : List Char) : List Char :=
  ((cs.dropWhile Char.isWhitespace).reverse.dropWhile Char.isWhitespace).reverse

/-- Embedding of Python `int(s)` on a character list: optional surrounding
whitespace, optional sign, one or more decimal digits; anything else raises
`ValueError`, embedded as `none`. -/
def pyParseInt (cs : List Char) : Option Int :=
  let t := pyStrip cs
  match t with
  | '-' :: ds =>
    if ds ≠ [] ∧ ds.all Char.isDigit then some (-(digitsVal ds : Int)) else none
  | '+' :: ds =>
    if ds ≠ [] ∧ ds.all Char.isDigit then some (digitsVal ds : Int) else none
  | ds =>
    if ds ≠ [] ∧ ds.all Char.isDigit then some (digitsVal ds : Int) else none

/-- `time_to_minutes` (`src/app.py:37-40`, `src/map.py:23-26`):
`h, m = map(int, time_str.split(':')); return h * 60 + m`.
`none` models the `ValueError` raised when the string does not split into
exactly two pieces or a piece is not an integer literal. -/
def time_to_minutes (s : String) : Option Int :=
  match splitChar ':' s.data with
  | [hs, ms] =>
    match pyParseInt hs, pyParseInt ms with
    | some h, some m => some (h * 60 + m)
    | _, _ => none
  | _ => none

/-- Python's `f"{n:02d}"`: decimal rendering left-padded with `0` to width
two (negative numbers render with their sign, e.g. `-5` as `"-5"`). -/
def pad2 (n : Int) : String :=
  if 0 ≤ n ∧ n < 10 then "0" ++ toString n else toString n

/-- `minutes_to_time` (`src/app.py:42-46`, `src/map.py:28-32`):
`h = minutes // 60; m = minutes % 60; return f"{h:02d}:{m:02d}"`.
Python `//` and `%` are floor division and modulo, i.e. `Int.fdiv` and
`Int.fmod`. -/
def minutes_to_time (minutes : Int) : String :=
  pad2 (Int.fdiv minutes 60) ++ ":" ++ pad2 (Int.fmod minutes 60)

/-- The decimal digit character for `n < 10`. -/
def dchar (n : Nat) : Char := Char.ofNat (48 + n)

/-- The canonical zero-padded rendering `"HH:MM"` of an hour/minute pair. -/
def mkHHMM (h m : Nat) : String :=
  ⟨[dchar (h / 10), dchar (h % 10), ':', dchar (m / 10), dchar (m % 10)]⟩

/-- The spec's domain for the Time Codec round trip: a valid `"HH:MM"`
string, i.e. the zero-padded rendering of some hour in [0,23] and minute in
[0,59]. -/
def IsValidHHMM (s : String) : Prop :=
  ∃ h : Fin 24, ∃ m : Fin 60, s = mkHHMM h.val m.val

instance (s : String) : Decidable (IsValidHHMM s) := by
  unfold IsValidHHMM; infer_instance

/-- Boolean check that a string has the shape `dd:dd` (two decimal digits,
a colon, two decimal digits) — the zero-padded rendering shape. -/
def isHHMMshape (s : String) : Bool :=
  match s.data with
  | [a, b, c, d, e] => a.isDigit && b.isDigit && c == ':' && d.isDigit && e.isDigit
  | _ => false

/-- Exhaustive check of the Time Codec round trip over the whole valid
domain (24 × 60 hour/minute pairs). -/
theorem roundtrip_fin : ∀ h : Fin 24, ∀ m : Fin 60,
    time_to_minutes (mkHHMM h.val m.val) = some ((h.val : Int) * 60 + (m.val : Int)) ∧
    minutes_to_time ((h.val : Int) * 60 + (m.val : Int)) = mkHHMM h.val m.val := by
  decide

/-- Exhaustive check that `minutes_to_time` renders every input in
[0, 1440] as a zero-padded `dd:dd` string. -/
theorem minutes_to_time_shape_fin : ∀ a : Fin 25, ∀ b : Fin 60,
    isHHMMshape (minutes_to_time ((a.val * 60 + b.val : Nat) : Int)) = true := by
  decide

/-- C7: for every valid `"HH:MM"` string `s` (hour in [0,23], minute in
[0,59], zero-padded), `minutes_to_time (time_to_minutes s) = s` — the Time
Codec round-trip law. -/
theorem C7_time_codec_roundtrip (s : String) (hs : IsValidHHMM s) :
    ∃ n : Int, time_to_minutes s = some n ∧ minutes_to_time n = s := by
  obtain ⟨h, m, rfl⟩ := hs
  exact ⟨_, (roundtrip_fin h m).1, (roundtrip_fin h m).2⟩

/-- Witness for C7 at the concrete input `"15:30"`. -/
theorem C7_witness : IsValidHHMM "15:30" ∧
    ∃ n : Int, time_to_minutes "15:30" = some n ∧ minutes_to_time n = "15:30" :=
  ⟨by decide, C7_time_codec_roundtrip "15:30" (by decide)⟩

/-- C8 counterexample: the sentinel `m = 1440` does NOT render as `"00:00"`;
the code computes `1440 // 60 = 24` and renders `"24:00"`. -/
theorem C8_counterexample :
    minutes_to_time 1440 = "24:00" ∧ minutes_to_time 1440 ≠ "00:00" := by
  constructor
  · decide
  · decide

/-- C8 as amended: `minutes_to_time` is defined and zero-padded (shape
`dd:dd`) for every `m` in [0, 1440]; the sentinel `m = 1440` yields the
text `"24:00"` (not `"00:00"`), i.e. it is not clamped. -/
theorem C8_amended_minutes_to_time (m : Nat) (hm : m ≤ 1440) :
    isHHMMshape (minutes_to_time (m : Int)) = true ∧
    minutes_to_time 1440 = "24:00" := by
  constructor
  · have h1 : m / 60 < 25 := by omega
    have h2 : m % 60 < 60 := by omega
    have h3 := minutes_to_time_shape_fin ⟨m / 60, h1⟩ ⟨m % 60, h2⟩
    simp only at h3
    rwa [show m / 60 * 60 + m % 60 = m by omega] at h3
  · decide

/-- Witness for the amended C8 at the concrete input `m = 90`. -/
theorem C8_witness : (90 : Nat) ≤ 1440 ∧
    (isHHMMshape (minutes_to_time ((90 : Nat) : Int)) = true ∧
      minutes_to_time 1440 = "24:00") :=
  ⟨by decide, C8_amended_minutes_to_time 90 (by decide)⟩

/-- C9 counterexample: `"25:00"` is not parseable as an hour in [0,23], so
the claim demands a `FormatError`; the code instead accepts it and returns
`25 * 60 + 0 = 1500` (outside [0,1439]). -/
theorem C9_counterexample :
    time_to_minutes "25:00" = some 1500 ∧ time_to_minutes "25:00" ≠ none := by
  constructor
  · decide
  · decide

/-- C9 as amended: `time_to_minutes` returns an integer in [0, 1439] for
every valid `"HH:MM"` input, but it does not range-check: any two
colon-separated integers are accepted (e.g. `"25:00"` yields `1500` rather
than a `FormatError`); only strings that fail to parse as two
colon-separated integers raise `ValueError`. -/
theorem C9_amended_time_to_minutes (s : String) (hs : IsValidHHMM s) :
    (∃ n : Int, time_to_minutes s = some n ∧ 0 ≤ n ∧ n ≤ 1439) ∧
    time_to_minutes "25:00" = some 1500 := by
  constructor
  · obtain ⟨h, m, rfl⟩ := hs
    refine ⟨_, (roundtrip_fin h m).1, ?_, ?_⟩
    · have hh := h.isLt
      have hm := m.isLt
      omega
    · have hh := h.isLt
      have hm := m.isLt
      omega
  · decide

/-- Witness for the amended C9 at the concrete input `"15:30"`. -/
theorem C9_witness : IsValidHHMM "15:30" ∧
    ((∃ n : Int, time_to_minutes "15:30" = some n ∧ 0 ≤ n ∧ n ≤ 1439) ∧
      time_to_minutes "25:00" = some 1500) :=
  ⟨by decide, C9_amended_time_to_minutes "15:30" (by decide)⟩

/-! ## Filter Engine (`get_locations`)

`src/db.py` lines 41-59 and `src/app.py` lines 48-61 (identical logic; only
the data source differs):

    if not df.empty:
        if day_filter and day_filter != "All":
            df = df[df['days'].str.contains(day_filter, na=False)]
        if time_filter:
            df = df[
                (df['start_time'] <= time_filter) &
                (df['end_time'] >= time_filter)
            ]
    return df

The location set is modelled as a `List Location` (a dataframe's rows in
order); boolean-mask selection is `List.filter`, which keeps relative
order.  `pandas.Series.str.contains` performs regex matching by default;
for the day tokens the app passes (`"Monday"`, …, or `"Mon"`, …, all purely
alphabetic) a regex match coincides with substring containment, which is
what `containsSub` embeds.  `na=False` concerns NaN `days` cells, which
cannot arise here since `days` is modelled as a string.  Python truthiness
of the selector strings (`None` and `""` are falsy) is spelled out. -/

/-- Substring containment on character lists: `containsSub needle hay` is
`true` iff `needle` occurs contiguously inside `hay`. -/
def containsSub (needle : List Char) : List Char → Bool
  | [] => needle.isEmpty
  | c :: cs => needle.isPrefixOf (c :: cs) || containsSub needle cs

/-- `df['days'].str.contains(day_filter)` for one row. -/
def dayMatch (day_filter : String) (r : Location) : Bool :=
  containsSub day_filter.data r.days.data

/-- `(df['start_time'] <= time_filter) & (df['end_time'] >= time_filter)`
for one row (lexicographic string comparison, as in pandas). -/
def timeMatch (time_filter : String) (r : Location) : Bool :=
  decide (r.start_time ≤ time_filter) && decide (time_filter ≤ r.end_time)

/-- `get_locations` (`src/db.py:41-59`, `src/app.py:48-61`): day filter
applied when the selector is truthy and not `"All"`, then time filter
applied when the selector is truthy; `none` models Python `None`. -/
def get_locations (L : List Location) (day_filter time_filter : Option String) :
    List Location :=
  if L.isEmpty then L
  else
    let L1 :=
      match day_filter with
      | some d => if d ≠ "" ∧ d ≠ "All" then L.filter (dayMatch d) else L
      | none => L
    let L2 :=
      match time_filter with
      | some t => if t ≠ "" then L1.filter (timeMatch t) else L1
      | none => L1
    L2

/-- The row predicate actually applied by `get_locations`, read off the
code's two masking steps. -/
def rowMatches (day_filter time_filter : Option String) (r : Location) : Bool :=
  (match day_filter with
   | some d => if d ≠ "" ∧ d ≠ "All" then dayMatch d r else true
   | none => true)
  &&
  (match time_filter with
   | some t => if t ≠ "" then timeMatch t r else true
   | none => true)

/-- Modelled from the spec's words for C1 (the refinement side): a location
matches iff (when the day selector is present and not the no-filter value
`"All"`) its `days` string contains the selector as a substring, and (when
the time selector is present) `start_time <= t <= end_time` lexically; the
two conditions compose by AND, an absent selector imposes nothing. -/
def specMatches (day_filter time_filter : Option String) (r : Location) : Bool :=
  (match day_filter with
   | some d => if d = "All" then true else dayMatch d r
   | none => true)
  &&
  (match time_filter with
   | some t => timeMatch t r
   | none => true)

/-- The empty needle is contained in every haystack. -/
theorem containsSub_nil (hay : List Char) : containsSub [] hay = true := by
  induction hay with
  | nil => rfl
  | cons c cs ih => simp [containsSub, List.isPrefixOf]

/-- `get_locations` is exactly one `List.filter` with the code's row
predicate (the emptiness guard and the two masking steps collapse). -/
theorem get_locations_eq_filter (L : List Location)
    (day_filter time_filter : Option String) :
    get_locations L day_filter time_filter = L.filter (rowMatches day_filter time_filter) := by
  by_cases hL : L.isEmpty
  · have : L = [] := List.isEmpty_iff.mp hL
    subst this
    simp [get_locations]
  · unfold get_locations rowMatches
    rw [if_neg hL]
    rcases day_filter with _ | d <;> rcases time_filter with _ | t <;>
      simp only []
    · exact (List.filter_eq_self.mpr (fun a _ => rfl)).symm
    · by_cases ht : t ≠ ""
      · rw [if_pos ht]
        exact List.filter_congr (fun x _ => by simp [ht])
      · rw [if_neg ht]
        exact (List.filter_eq_self.mpr (fun a _ => by simp [ht])).symm
    · by_cases hd : d ≠ "" ∧ d ≠ "All"
      · rw [if_pos hd]
        exact List.filter_congr (fun x _ => by simp [hd])
      · rw [if_neg hd]
        exact (List.filter_eq_self.mpr (fun a _ => by simp [hd])).symm
    · by_cases hd : d ≠ "" ∧ d ≠ "All" <;> by_cases ht : t ≠ ""
      · rw [if_pos ht, if_pos hd, List.filter_filter]
        exact List.filter_congr (fun x _ => by simp [hd, ht, Bool.and_comm])
      · rw [if_neg ht, if_pos hd]
        exact List.filter_congr (fun x _ => by simp [hd, ht])
      · rw [if_pos ht, if_neg hd]
        exact List.filter_congr (fun x _ => by simp [hd, ht])
      · rw [if_neg ht, if_neg hd]
        exact (List.filter_eq_self.mpr (fun a _ => by simp [hd, ht])).symm

/-- Sample row: "The Pump Bar" from the seed data of `src/db.py` (fields
`id, name, address, lat, lon, description, days, start_time, end_time`;
coordinates as integers). -/
def locPump : Location :=
  ⟨1, "The Pump Bar", "2425 N Walker Ave, Oklahoma City, OK", 35, -97,
    "3 dollar wells, 4 dollar drafts", "Monday,Tuesday,Wednesday,Thursday,Friday",
    "15:00", "19:00"⟩

/-- Sample row: "Fassler Hall" from the seed data of `src/db.py`. -/
def locFassler : Location :=
  ⟨2, "Fassler Hall", "7 E Sheridan Ave, Oklahoma City, OK", 35, -97,
    "5 dollar beer and brats", "Monday,Tuesday,Wednesday,Thursday,Friday",
    "16:00", "18:00"⟩

/-- C1: `get_locations` returns exactly the locations of `L`, in order,
whose `days` contains the day selector as a substring (when present and not
`"All"`) and whose `[start_time, end_time]` window contains the time
selector lexically (when present); the two conditions compose by AND, and
absent/no-filter selectors return the full set.  A present time selector is
an `"HH:MM"` string by the spec's domain, hence nonempty — the hypothesis
`ht` records this (the empty string is the UI's encoding of "absent"). -/
theorem C1_filter_engine (L : List Location) (d t : Option String)
    (ht : ∀ tv, t = some tv → tv ≠ "") :
    get_locations L d t = L.filter (specMatches d t) ∧
    get_locations L none none = L ∧
    get_locations L (some "All") none = L := by
  refine ⟨?_, ?_, ?_⟩
  · rw [get_locations_eq_filter]
    refine List.filter_congr (fun x _ => ?_)
    rcases d with _ | dv <;> rcases t with _ | tv
    · rfl
    · have htv := ht tv rfl
      simp [rowMatches, specMatches, htv]
    · by_cases hdv : dv = "All"
      · subst hdv; simp [rowMatches, specMatches]
      · by_cases hdv2 : dv = ""
        · subst hdv2
          have hnil : dayMatch "" x = true := by
            unfold dayMatch
            have hd : ("" : String).data = [] := rfl
            rw [hd]; exact containsSub_nil _
          simp [rowMatches, specMatches, hnil]
        · simp [rowMatches, specMatches, hdv, hdv2]
    · have htv := ht tv rfl
      by_cases hdv : dv = "All"
      · subst hdv; simp [rowMatches, specMatches, htv]
      · by_cases hdv2 : dv = ""
        · subst hdv2
          have hnil : dayMatch "" x = true := by
            unfold dayMatch
            have hd : ("" : String).data = [] := rfl
            rw [hd]; exact containsSub_nil _
          simp [rowMatches, specMatches, htv, hnil]
        · simp [rowMatches, specMatches, htv, hdv, hdv2]
  · rw [get_locations_eq_filter]
    exact List.filter_eq_self.mpr (fun a _ => rfl)
  · rw [get_locations_eq_filter]
    exact List.filter_eq_self.mpr (fun a _ => by simp [rowMatches])

/-- Witness for C1 at a concrete store and concrete selectors. -/
theorem C1_witness :
    (∀ tv, (some "17:00" : Option String) = some tv → tv ≠ "") ∧
    (get_locations [locPump, locFassler] (some "Monday") (some "17:00") =
        List.filter (specMatches (some "Monday") (some "17:00")) [locPump, locFassler] ∧
      get_locations [locPump, locFassler] none none = [locPump, locFassler] ∧
      get_locations [locPump, locFassler] (some "All") none = [locPump, locFassler]) :=
  ⟨fun tv h => by cases h; decide,
    C1_filter_engine [locPump, locFassler] (some "Monday") (some "17:00")
      (fun tv h => by cases h; decide)⟩

/-- C2: the Filter Engine is idempotent — filtering an already-filtered set
with the same selectors changes nothing, for every selector pair. -/
theorem C2_filter_idempotent (L : List Location) (d t : Option String) :
    get_locations (get_locations L d t) d t = get_locations L d t := by
  simp only [get_locations_eq_filter, List.filter_filter]
  exact List.filter_congr (fun x _ => by simp)

/-! ## Spreadsheet repository (`src/data_store.py`)

The worksheet is modelled as `List Location` (rows in sheet order, header
row elided).  `insert_location` (lines 40-52) computes
`next_id = max([r["id"] for r in existing], default=0) + 1` and appends the
row at the bottom; `update_description` (lines 54-61) rewrites the
description cell (column F) of the first row whose id matches and returns;
`delete_location` (lines 63-70) deletes the first row whose id matches and
returns.  Neither loop signals anything when no row matches — it falls
through and returns `None`. -/

namespace DataStore

/-- `insert_location` (`src/data_store.py:40-52`): the `row` argument
carries the non-id fields (its `id` field is overwritten, as
`{"id": next_id, **row}` puts the fresh id first); returns the updated
sheet and the assigned id. -/
def insert_location (s : List Location) (row : Location) : List Location × Nat :=
  let next_id := (s.map Location.id).foldl max 0 + 1
  (s ++ [{ row with id := next_id }], next_id)

/-- `update_description` (`src/data_store.py:54-61`): update the
description cell of the first matching row; silent no-op when absent. -/
def update_description : List Location → Nat → String → List Location
  | [], _, _ => []
  | r :: rs, i, d =>
    if r.id = i then { r with description := d } :: rs
    else r :: update_description rs i d

/-- `delete_location` (`src/data_store.py:63-70`): delete the first
matching row; silent no-op when absent. -/
def delete_location : List Location → Nat → List Location
  | [], _ => []
  | r :: rs, i => if r.id = i then rs else r :: delete_location rs i

end DataStore

/-! ## Sqlite repository (`src/db.py`)

The `locations` table is modelled as `List Location` (rows in rowid
order).  Only the success paths of the `try` blocks are modelled — the
`except` branches fire on backend I/O failure, which is external to the
embedding.  `delete_location` (lines 98-108) runs
`DELETE FROM locations WHERE id=?` and returns `(True, ...)` whether or not
any row matched; `update_location` (lines 83-96) likewise returns `True`
unconditionally on the success path. -/

namespace Db

/-- `get_location_by_id` (`src/db.py:110-129`): `SELECT ... WHERE id=?`
with `fetchone`, i.e. the first matching row or `None`. -/
def get_location_by_id (s : List Location) (i : Nat) : Option Location :=
  s.find? (fun r => r.id == i)

/-- `update_location` (`src/db.py:83-96`): overwrite every field except the
id on each row matching the id (the primary key makes it at most one);
returns the success flag and the new table. -/
def update_location (s : List Location) (i : Nat) (name address : String)
    (lat lon : Int) (description days start_time end_time : String) :
    Bool × List Location :=
  (true,
    s.map (fun r =>
      if r.id = i then ⟨r.id, name, address, lat, lon, description, days, start_time, end_time⟩
      else r))

/-- `delete_location` (`src/db.py:98-108`): remove every row matching the
id and report success regardless of whether any row matched. -/
def delete_location (s : List Location) (i : Nat) : Bool × List Location :=
  (true, s.filter (fun r => r.id != i))

end Db

/-! ## Geocoder Adapter (`geocode_address`, `src/app.py:26-35` and
`src/map.py:12-21`)

    try:
        location = geolocator.geocode(address)
        if location:
            return location.latitude, location.longitude
        return None, None
    except Exception as e:
        print(f"Geocoding error: {e}")
        return None, None

The external geopy call is an oracle: it yields a best-match location,
`None`, or raises.  The embedding is total in the oracle's answer — the
`except` arm is the `error` case, so no exception escapes to the caller. -/

/-- Oracle for the geopy `geolocator.geocode(address)` call: a best match
with coordinates, no match (`None`), or a raised provider exception. -/
inductive GeoResult where
  | found (lat lon : Int)
  | noMatch
  | error
deriving DecidableEq, Repr

/-- `geocode_address` as a function of the provider's answer for the given
address. -/
def geocode_address (resp : GeoResult) : Option Int × Option Int :=
  match resp with
  | .found lat lon => (some lat, some lon)
  | .noMatch => (none, none)
  | .error => (none, none)

/-! ## Admin full-edit save flow (`save_edited_location`, `src/admin.py:208-233`)

Modelled from the `if not all([...])` validation onward (the preceding
`n_clicks`/`location_id` guard is UI plumbing).  The feedback alternatives
of the callback are the outcome type below. -/

/-- Outcome of the admin edit-save callback: the four feedback branches of
`save_edited_location`. -/
inductive SaveOutcome where
  | validationError
  | notFound
  | geocodeError
  | saved
deriving DecidableEq, Repr

/-- `save_edited_location` (`src/admin.py:208-233`): validate required
fields, look up the stored record, re-geocode only when the submitted
address differs from the stored one (failing the whole update when
geocoding yields `None`s), reuse stored coordinates otherwise, then call
the full `update_location`. -/
def save_edited_location (s : List Location) (location_id : Nat)
    (name address desc days start_time end_time : String) (geo : GeoResult) :
    SaveOutcome × List Location :=
  if name = "" ∨ address = "" ∨ days = "" ∨ start_time = "" ∨ end_time = "" then
    (.validationError, s)
  else
    match Db.get_location_by_id s location_id with
    | none => (.notFound, s)
    | some existing =>
      let coords :=
        if address ≠ existing.address then geocode_address geo
        else (some existing.lat, some existing.lon)
      match coords with
      | (some lat, some lon) =>
        (.saved,
          (Db.update_location s location_id name address lat lon
            desc days start_time end_time).2)
      | _ => (.geocodeError, s)

/-- C10: whatever the provider does — match, no match, or raise —
`geocode_address` returns either two coordinates or exactly `(None, None)`;
a mixed pair with a single `None` is impossible, and (the embedding being
total in the oracle's answer) no exception reaches the caller, so
`lat is None or lon is None` detects exactly the failure cases. -/
theorem C10_geocode_never_mixed (resp : GeoResult) :
    (∃ lat lon, geocode_address resp = (some lat, some lon)) ∨
    geocode_address resp = (none, none) := by
  cases resp with
  | found lat lon => exact Or.inl ⟨lat, lon, rfl⟩
  | noMatch => exact Or.inr rfl
  | error => exact Or.inr rfl

/-- C4: in the admin full-edit save flow, with all required fields present
and the target record stored: a changed address with failed geocoding
aborts the whole update with the store untouched; an unchanged address
reuses the stored coordinates in the full update; a changed address with
successful geocoding feeds the fresh coordinates into the full update — so
`update_location` runs only after the coordinates are determined. -/
theorem C4_admin_edit_geocode (s : List Location) (location_id : Nat)
    (name address desc days st et : String) (geo : GeoResult) (existing : Location)
    (hfields : name ≠ "" ∧ address ≠ "" ∧ days ≠ "" ∧ st ≠ "" ∧ et ≠ "")
    (hex : Db.get_location_by_id s location_id = some existing) :
    ((address ≠ existing.address ∧ geocode_address geo = (none, none)) →
      save_edited_location s location_id name address desc days st et geo =
        (SaveOutcome.geocodeError, s)) ∧
    (address = existing.address →
      save_edited_location s location_id name address desc days st et geo =
        (SaveOutcome.saved,
          (Db.update_location s location_id name address existing.lat existing.lon
            desc days st et).2)) ∧
    (∀ glat glon, address ≠ existing.address →
      geocode_address geo = (some glat, some glon) →
      save_edited_location s location_id name address desc days st et geo =
        (SaveOutcome.saved,
          (Db.update_location s location_id name address glat glon
            desc days st et).2)) := by
  obtain ⟨h1, h2, h3, h4, h5⟩ := hfields
  have hguard : ¬(name = "" ∨ address = "" ∨ days = "" ∨ st = "" ∨ et = "") := by
    tauto
  refine ⟨?_, ?_, ?_⟩
  · rintro ⟨hne, hfail⟩
    simp [save_edited_location, hguard, hex, hne, hfail]
  · intro heq
    simp [save_edited_location, hguard, hex, heq]
    exact ⟨h1, heq ▸ h2, h3, h4, h5⟩
  · intro glat glon hne hfound
    simp [save_edited_location, hguard, hex, hne, hfound]

/-- Witness for C4: editing the stored "The Pump Bar" row with a changed
address while the provider errors leaves the store untouched and reports a
geocode failure. -/
theorem C4_witness :
    (("New Name" : String) ≠ "" ∧ ("123 New St" : String) ≠ "" ∧
      ("Monday" : String) ≠ "" ∧ ("15:00" : String) ≠ "" ∧ ("19:00" : String) ≠ "") ∧
    Db.get_location_by_id [locPump] 1 = some locPump ∧
    ((("123 New St" : String) ≠ locPump.address ∧
        geocode_address GeoResult.error = (none, none)) →
      save_edited_location [locPump] 1 "New Name" "123 New St" "deal" "Monday"
          "15:00" "19:00" GeoResult.error = (SaveOutcome.geocodeError, [locPump])) :=
  ⟨by decide, by decide,
    (C4_admin_edit_geocode [locPump] 1 "New Name" "123 New St" "deal" "Monday"
      "15:00" "19:00" GeoResult.error locPump (by decide) (by decide)).1⟩

/-- Two records agree on every field other than `description`. -/
def agreesOffDescription (r r' : Location) : Prop :=
  r'.id = r.id ∧ r'.name = r.name ∧ r'.address = r.address ∧ r'.lat = r.lat ∧
  r'.lon = r.lon ∧ r'.days = r.days ∧ r'.start_time = r.start_time ∧
  r'.end_time = r.end_time

/-- C5: the description-only update changes only the matching record's
description — every record keeps its `id, name, address, lat, lon, days,
start_time, end_time`, a record's description changes only if its id is the
targeted one, and when the targeted id is stored some record with that id
carries the new description afterwards. -/
theorem C5_update_description_frame (s : List Location) (i : Nat) (d : String) :
    List.Forall₂
      (fun r r' => agreesOffDescription r r' ∧
        (r'.description = r.description ∨ (r.id = i ∧ r'.description = d)))
      s (DataStore.update_description s i d) ∧
    (∀ r, r ∈ s → r.id = i →
      ∃ r', r' ∈ DataStore.update_description s i d ∧ r'.id = i ∧
        r'.description = d) := by
  induction s with
  | nil =>
    exact ⟨List.Forall₂.nil, fun r hr _ => absurd hr (List.not_mem_nil r)⟩
  | cons a rs ih =>
    by_cases ha : a.id = i
    · constructor
      · show List.Forall₂ _ (a :: rs) (if a.id = i then _ else _)
        rw [if_pos ha]
        exact List.Forall₂.cons
          ⟨⟨rfl, rfl, rfl, rfl, rfl, rfl, rfl, rfl⟩, Or.inr ⟨ha, rfl⟩⟩
          (List.forall₂_same.mpr
            (fun x _ => ⟨⟨rfl, rfl, rfl, rfl, rfl, rfl, rfl, rfl⟩, Or.inl rfl⟩))
      · intro r _ _
        refine ⟨{ a with description := d }, ?_, ha, rfl⟩
        show { a with description := d } ∈ (if a.id = i then _ else _)
        rw [if_pos ha]
        exact List.mem_cons_self _ _
    · constructor
      · show List.Forall₂ _ (a :: rs) (if a.id = i then _ else _)
        rw [if_neg ha]
        exact List.Forall₂.cons
          ⟨⟨rfl, rfl, rfl, rfl, rfl, rfl, rfl, rfl⟩, Or.inl rfl⟩ ih.1
      · intro r hr hri
        rcases List.mem_cons.mp hr with h | h
        · exact absurd (h ▸ hri) ha
        · obtain ⟨r', hr', hid, hdesc⟩ := ih.2 r h hri
          refine ⟨r', ?_, hid, hdesc⟩
          show r' ∈ (if a.id = i then _ else _)
          rw [if_neg ha]
          exact List.mem_cons_of_mem a hr'

/-- Witness for C5 at a concrete two-row sheet, updating row id 2. -/
theorem C5_witness :
    List.Forall₂
      (fun r r' => agreesOffDescription r r' ∧
        (r'.description = r.description ∨ (r.id = 2 ∧ r'.description = "new deal")))
      [locPump, locFassler]
      (DataStore.update_description [locPump, locFassler] 2 "new deal") ∧
    ∃ r', r' ∈ DataStore.update_description [locPump, locFassler] 2 "new deal" ∧
      r'.id = 2 ∧ r'.description = "new deal" :=
  ⟨(C5_update_description_frame [locPump, locFassler] 2 "new deal").1,
    (C5_update_description_frame [locPump, locFassler] 2 "new deal").2
      locFassler (by decide) (by decide)⟩

/-- C6 counterexample: deleting id 99 from a store holding only id 1 — a
nonexistent id — reports success (`True`, not `NotFound`) in the relational
backend, and the spreadsheet backend returns with no signal at all; both
leave the store unchanged. -/
theorem C6_counterexample :
    Db.delete_location [locPump] 99 = (true, [locPump]) ∧
    DataStore.delete_location [locPump] 99 = [locPump] := by
  decide

/-- C6 as amended: deleting an id absent from the store leaves the store
(and so its record count) unchanged, but neither backend yields `NotFound`:
the relational backend reports success and the spreadsheet backend returns
silently. -/
theorem C6_amended_delete_missing (s : List Location) (i : Nat)
    (h : ∀ r, r ∈ s → r.id ≠ i) :
    Db.delete_location s i = (true, s) ∧ DataStore.delete_location s i = s := by
  constructor
  · unfold Db.delete_location
    have hf : s.filter (fun r => r.id != i) = s :=
      List.filter_eq_self.mpr (fun a ha => by simpa using h a ha)
    rw [hf]
  · revert h
    induction s with
    | nil => intro h; rfl
    | cons a rs ih =>
      intro h
      have ha : a.id ≠ i := h a (List.mem_cons_self a rs)
      show (if a.id = i then _ else _) = _
      rw [if_neg ha, ih (fun r hr => h r (List.mem_cons_of_mem a hr))]

/-- Witness for the amended C6: id 99 is not in the one-row store. -/
theorem C6_witness :
    (∀ r, r ∈ [locPump] → r.id ≠ 99) ∧
    (Db.delete_location [locPump] 99 = (true, [locPump]) ∧
      DataStore.delete_location [locPump] 99 = [locPump]) :=
  ⟨by decide, C6_amended_delete_missing [locPump] 99 (by decide)⟩

/-- A generic row used by the id-assignment scenarios (its id field is
irrelevant: `insert_location` overwrites it). -/
def rowX : Location :=
  ⟨0, "X Bar", "1 X St, Oklahoma City, OK", 10, -20, "specials", "Friday",
    "16:00", "18:00"⟩

/-- The seed of a `max` fold never exceeds the fold's result. -/
theorem foldl_max_seed_le (l : List Nat) : ∀ a : Nat, a ≤ l.foldl max a := by
  induction l with
  | nil => intro a; exact Nat.le_refl a
  | cons b bs ih =>
    intro a
    exact Nat.le_trans (Nat.le_max_left a b) (ih (max a b))

/-- Every member of the list is bounded by the `max` fold. -/
theorem mem_le_foldl_max (l : List Nat) : ∀ (a : Nat) (x : Nat), x ∈ l → x ≤ l.foldl max a := by
  induction l with
  | nil => intro a x hx; exact absurd hx (List.not_mem_nil x)
  | cons b bs ih =>
    intro a x hx
    rcases List.mem_cons.mp hx with h | h
    · subst h
      exact Nat.le_trans (Nat.le_max_right a x) (foldl_max_seed_le bs (max a x))
    · exact ih (max a b) x h

/-- C3 counterexample: starting from an empty sheet, two inserts assign
ids 1 and 2; deleting id 2 (the current maximum) and inserting again
assigns id 2 once more — the `max+1` policy DOES reuse a deleted id. -/
theorem C3_counterexample :
    (DataStore.insert_location (DataStore.insert_location [] rowX).1 rowX).2 = 2 ∧
    (DataStore.insert_location
        (DataStore.delete_location
          (DataStore.insert_location (DataStore.insert_location [] rowX).1 rowX).1 2)
        rowX).2 = 2 := by
  decide

/-- C3 as amended: `insert_location` assigns `max(existing ids) + 1` (so
`1` on an empty sheet), hence a previously deleted id `d` is not reassigned
as long as some record with id at least `d` is still stored at insertion
time; when the deleted id exceeded every remaining id (e.g. the maximum was
deleted), it is reused. -/
theorem C3_amended_insert_ids (s : List Location) (row : Location) (d : Nat)
    (h : ∃ r, r ∈ s ∧ d ≤ r.id) :
    (DataStore.insert_location s row).2 ≠ d ∧
    (DataStore.insert_location [] row).2 = 1 := by
  constructor
  · obtain ⟨r, hr, hd⟩ := h
    have hmem : r.id ∈ s.map Location.id := List.mem_map_of_mem Location.id hr
    have hle : r.id ≤ (s.map Location.id).foldl max 0 :=
      mem_le_foldl_max (s.map Location.id) 0 r.id hmem
    show (s.map Location.id).foldl max 0 + 1 ≠ d
    omega
  · rfl

/-- Witness for the amended C3: with id 2 still stored, inserting does not
reassign 2 (it assigns 3), and the first insert into an empty sheet
assigns 1. -/
theorem C3_witness :
    (∃ r, r ∈ [locFassler] ∧ 2 ≤ r.id) ∧
    ((DataStore.insert_location [locFassler] rowX).2 ≠ 2 ∧
      (DataStore.insert_location [] rowX).2 = 1) :=
  ⟨⟨locFassler, by decide, by decide⟩,
    C3_amended_insert_ids [locFassler] rowX 2 ⟨locFassler, by decide, by decide⟩⟩
